import Mathlib

/-!
Shallow embedding of `src/detect_person.py`: a single-file monitoring loop
that watches a camera, debounces per-frame person detections into
Arrived/Departed transitions, and dispatches side effects (log record,
snapshot save, cooldown-throttled desktop notification, frame display).

Time (`time.time()` values and the cooldown comparison) is modelled by
integers (seconds); frames and detection boxes are modelled by opaque
natural-number identifiers.  External outcomes the Python code observes
through exceptions (photo save, notification delivery, `imshow`) are
modelled as per-tick success booleans supplied by the environment.
-/

namespace DetectPerson

/-- Observable side effects of one monitoring session, in program order.
Each constructor corresponds to one effectful statement of
`src/detect_person.py` in the main loop or the cleanup section. -/
inductive Effect where
  /-- line 107: `logging.info("检测到有人! (n 个目标)")`, with the box count. -/
  | logArrived (count : ℕ)
  /-- lines 112-115: `results[0].plot()` and `cv2.imwrite` succeeded, photo of
  this tick's frame written (and its info log emitted). -/
  | photoSaved (frame : ℕ)
  /-- line 117: `logging.error("保存照片失败: ...")` after a failed plot/imwrite. -/
  | logPhotoError
  /-- lines 123-130: `notification.notify` succeeded (and its info log emitted). -/
  | notifySent
  /-- line 132: `logging.error("发送通知失败: ...")` after a failed delivery. -/
  | logNotifyError
  /-- line 134: `logging.info("通知在冷却时间内，跳过发送.")`. -/
  | logCooldownSkip
  /-- line 142: `logging.info("人已离开.")`. -/
  | logDeparted
  /-- line 155: `cv2.imshow` of the stored `annotated_frame`. -/
  | displayAnnotated (frame : ℕ)
  /-- line 155: `cv2.imshow` of this tick's raw frame. -/
  | displayRaw (frame : ℕ)
  /-- line 157: `logging.error("显示画面失败: ...")`. -/
  | logDisplayError
  /-- line 87: `logging.warning("警告: 无法读取帧.")`. -/
  | logReadWarning
  /-- line 163: `logging.info("检测到 'q' 键，正在退出...")`. -/
  | logQuit
  /-- line 167: `cap.release()`. -/
  | releaseCapture
  /-- line 168: `cv2.destroyAllWindows()`. -/
  | destroyWindows
  /-- line 169: `logging.info("摄像头释放，窗口关闭.")`. -/
  | logCleanup
  /-- line 170: `logging.info("--- 脚本结束 ---")`. -/
  | logSessionEnd
  deriving DecidableEq

/-- The mutable state of the main loop (lines 73, 75, and the Python global
`annotated_frame`, which is unassigned until the first successful
`results[0].plot()` — modelled as `Option`). -/
structure LoopState where
  person_detected_previously : Bool
  last_notification_time : ℤ
  annotated_frame : Option ℕ
  deriving DecidableEq

/-- Initial state (lines 73 and 75): no person seen, `last_notification_time = 0`,
`annotated_frame` not yet assigned. -/
def initState : LoopState := ⟨false, 0, none⟩

/-- Everything the environment supplies to one iteration of the `while True`
loop: the `cap.read()` outcome, the frame, the inference result
(`none` models an empty `results` list, `some bs` models `results[0].boxes`),
the `time.time()` sample, the success of each fallible side effect, and
whether `q` was pressed. -/
structure TickInput where
  ret : Bool
  frame : ℕ
  results : Option (List ℕ)
  now : ℤ
  plot_ok : Bool
  write_ok : Bool
  notify_ok : Bool
  imshow_ok : Bool
  quit_key : Bool
  deriving DecidableEq

/-- Line 96: `if results and len(results[0].boxes) > 0`. -/
def detectedNow (results : Option (List ℕ)) : Bool :=
  match results with
  | none => false
  | some bs => decide (0 < bs.length)

/-- Line 106: `len(results[0].boxes)` (only evaluated inside the arrival branch,
where `results` is non-empty). -/
def boxCount (results : Option (List ℕ)) : ℕ :=
  match results with
  | none => 0
  | some bs => bs.length

/-- The cooldown gate, lines 121 and 129: fires iff
`current_time - last_notification_time > notification_cooldown`; the
`last_notification_time = current_time` update happens only after a
successful `notification.notify` call (it sits inside the `try` block,
after the delivery).  Returns (fired, new last_notification_time). -/
def tryFire (cooldown last now : ℤ) (notify_ok : Bool) : Bool × ℤ :=
  if now - last > cooldown then
    (true, if notify_ok then now else last)
  else
    (false, last)

/-- Lines 120-134: the notification block of the arrival branch.
Returns the emitted effects and the new `last_notification_time`. -/
def notifyEffects (cooldown last now : ℤ) (notify_ok : Bool) : List Effect × ℤ :=
  let r := tryFire cooldown last now notify_ok
  (if r.1 then
     if notify_ok then [Effect.notifySent] else [Effect.logNotifyError]
   else [Effect.logCooldownSkip],
   r.2)

/-- Lines 110-118: the photo block of the arrival branch.  `plot_ok` is
whether `results[0].plot()` succeeds (on success the global
`annotated_frame` is assigned this tick's frame even if the subsequent
`imwrite` fails); `write_ok` is whether `cv2.imwrite` succeeds.
Returns the emitted effects and the new `annotated_frame`. -/
def photoEffects (frame : ℕ) (annotated : Option ℕ) (plot_ok write_ok : Bool) :
    List Effect × Option ℕ :=
  if plot_ok then
    if write_ok then ([Effect.photoSaved frame], some frame)
    else ([Effect.logPhotoError], some frame)
  else ([Effect.logPhotoError], annotated)

/-- Lines 100-137: the whole arrival branch (log, photo, throttled
notification, state flag update). -/
def arrivedEffects (cooldown : ℤ) (s : LoopState) (inp : TickInput) :
    List Effect × LoopState :=
  let p := photoEffects inp.frame s.annotated_frame inp.plot_ok inp.write_ok
  let n := notifyEffects cooldown s.last_notification_time inp.now inp.notify_ok
  (Effect.logArrived (boxCount inp.results) :: (p.1 ++ n.1),
   { person_detected_previously := true
     last_notification_time := n.2
     annotated_frame := p.2 })

/-- Lines 145-157: display block.  If a person was detected this frame the
stored `annotated_frame` is shown (a `NameError` if it was never assigned —
caught by the surrounding `try` and logged); otherwise the raw frame.
`imshow_ok` is whether `cv2.imshow` itself succeeds. -/
def displayEffects (detected : Bool) (annotated : Option ℕ) (frame : ℕ)
    (imshow_ok : Bool) : List Effect :=
  if detected then
    match annotated with
    | none => [Effect.logDisplayError]
    | some a => if imshow_ok then [Effect.displayAnnotated a] else [Effect.logDisplayError]
  else
    if imshow_ok then [Effect.displayRaw frame] else [Effect.logDisplayError]

/-- Result of one loop iteration: new state, emitted effects in order, and
whether the loop keeps running (`false` exactly on the two `break`s). -/
structure TickResult where
  state : LoopState
  effects : List Effect
  running : Bool
  deriving DecidableEq

/-- Lines 100-143: the three-way branch on `person_detected_current_frame`
and `person_detected_previously` (arrival branch, departure branch, or
no-op), returning the emitted alert effects and the updated state. -/
def transitionStep (cooldown : ℤ) (s : LoopState) (inp : TickInput) :
    List Effect × LoopState :=
  if detectedNow inp.results && !s.person_detected_previously then
    arrivedEffects cooldown s inp
  else if !(detectedNow inp.results) && s.person_detected_previously then
    ([Effect.logDeparted], { s with person_detected_previously := false })
  else
    ([], s)

/-- One iteration of the `while True` loop, lines 81-164. -/
def tick (cooldown : ℤ) (s : LoopState) (inp : TickInput) : TickResult :=
  if inp.ret = false then
    ⟨s, [Effect.logReadWarning], false⟩
  else
    let step := transitionStep cooldown s inp
    let dEffs := displayEffects (detectedNow inp.results) step.2.annotated_frame
      inp.frame inp.imshow_ok
    if inp.quit_key then
      ⟨step.2, step.1 ++ dEffs ++ [Effect.logQuit], false⟩
    else
      ⟨step.2, step.1 ++ dEffs, true⟩

/-- Runs the loop over a finite prefix of environment inputs.  Returns the
effects emitted, the final state, and whether the loop terminated by a
`break` within this prefix. -/
def runLoop (cooldown : ℤ) : LoopState → List TickInput → List Effect × LoopState × Bool
  | s, [] => ([], s, false)
  | s, inp :: rest =>
    let r := tick cooldown s inp
    if r.running then
      let k := runLoop cooldown r.state rest
      (r.effects ++ k.1, k.2)
    else
      (r.effects, r.state, true)

/-- Lines 166-170: release the capture, destroy the windows, and the two
closing log lines. -/
def cleanupEffects : List Effect :=
  [Effect.releaseCapture, Effect.destroyWindows, Effect.logCleanup, Effect.logSessionEnd]

/-- A whole session over the given inputs: the loop's effects, followed by
the cleanup section whenever the loop terminated within the inputs. -/
def session (cooldown : ℤ) (s : LoopState) (inputs : List TickInput) : List Effect :=
  let r := runLoop cooldown s inputs
  r.1 ++ (if r.2.2 then cleanupEffects else [])

/-- Is this effect the Arrived log record? -/
def isArrivedLog : Effect → Bool
  | Effect.logArrived _ => true
  | _ => false

/-- Is this effect a snapshot-persistence attempt (success or logged failure)? -/
def isPhotoAttempt : Effect → Bool
  | Effect.photoSaved _ => true
  | Effect.logPhotoError => true
  | _ => false

/-- Is this effect an outcome of the notification block (delivered, delivery
failed, or skipped by cooldown)? -/
def isNotifyOutcome : Effect → Bool
  | Effect.notifySent => true
  | Effect.logNotifyError => true
  | Effect.logCooldownSkip => true
  | _ => false

/-- Is this effect part of the alert dispatch (arrival/departure handling),
as opposed to display, exit handling or cleanup? -/
def isAlertEffect : Effect → Bool
  | Effect.logArrived _ => true
  | Effect.photoSaved _ => true
  | Effect.logPhotoError => true
  | Effect.notifySent => true
  | Effect.logNotifyError => true
  | Effect.logCooldownSkip => true
  | Effect.logDeparted => true
  | _ => false

/-- Is this effect produced by the display block (a rendered frame or the
logged render failure)? -/
def isRenderEffect : Effect → Bool
  | Effect.displayAnnotated _ => true
  | Effect.displayRaw _ => true
  | Effect.logDisplayError => true
  | _ => false

/-- Number of Arrived log records in an effect list. -/
def countArrived (l : List Effect) : ℕ := l.countP isArrivedLog

/-- Number of Departed log records in an effect list. -/
def countDeparted (l : List Effect) : ℕ :=
  l.countP fun e => decide (e = Effect.logDeparted)

/-- A trace of cooldown-gate decisions: each call supplies the sampled
`time.time()` value and whether the delivery attempt would succeed; the
output lists, in order, whether each call fired (entered the notification
branch of line 121). -/
def gateRun (cooldown : ℤ) : ℤ → List (ℤ × Bool) → List Bool
  | _, [] => []
  | last, c :: rest =>
    let r := tryFire cooldown last c.1 c.2
    r.1 :: gateRun cooldown r.2 rest

/-- The `last_notification_time` value after a trace of gate calls. -/
def lastAfter (cooldown : ℤ) : ℤ → List (ℤ × Bool) → ℤ
  | last, [] => last
  | last, c :: rest => lastAfter cooldown (tryFire cooldown last c.1 c.2).2 rest

/-- A `datetime.now()` value as used by line 103, split into the components
that `strftime('%Y%m%d_%H%M%S_%f')` renders: the calendar date, the
time of day in whole seconds, and the microsecond field (0..999999). -/
structure Timestamp where
  ymd : ℕ
  hms : ℕ
  micro : ℕ
  deriving DecidableEq

/-- Line 103: `datetime.now().strftime('%Y%m%d_%H%M%S_%f')[:-3]` — the
`%f` field is six zero-padded digits of microseconds and `[:-3]` drops the
last three characters, leaving the millisecond value `micro / 1000`. -/
def timestampStr (t : Timestamp) : ℕ × ℕ × ℕ :=
  (t.ymd, t.hms, t.micro / 1000)

/-- Lines 113-114: `photo_dir + "person_" + timestamp_str + ".jpg"`; the
directory, prefix and extension are constant, so the filename is determined
by (and, being fixed-width zero-padded fields, injective in) `timestampStr`. -/
def photoFilename (t : Timestamp) : ℕ × ℕ × ℕ :=
  timestampStr t

/-- Number of Absent-to-Present edges in a detection sequence started from
the given previous-detection flag (formalizes the transitions the spec's
PresenceTracker invariant is stated over). -/
def specArrivals : Bool → List Bool → ℕ
  | _, [] => 0
  | prev, d :: ds => (if d && !prev then 1 else 0) + specArrivals d ds

/-- Number of Present-to-Absent edges in a detection sequence started from
the given previous-detection flag. -/
def specDepartures : Bool → List Bool → ℕ
  | _, [] => 0
  | prev, d :: ds => (if !d && prev then 1 else 0) + specDepartures d ds

/-- A tick input whose frame read, photo save, notification delivery and
display all succeed, with no exit request. -/
def okInput (frame : ℕ) (results : Option (List ℕ)) (now : ℤ) : TickInput :=
  ⟨true, frame, results, now, true, true, true, true, false⟩

/-- The alternating-detection scenario: detections true, false, true, false,
true at one-second ticks starting at `t0`, frames numbered 1 to 5, one box
per positive detection, every side effect succeeding. -/
def alternatingInputs (t0 : ℤ) : List TickInput :=
  [okInput 1 (some [0]) t0, okInput 2 none (t0 + 1), okInput 3 (some [0]) (t0 + 2),
   okInput 4 none (t0 + 3), okInput 5 (some [0]) (t0 + 4)]

/-- Two consecutive ticks that both detect a person (frames 1 and 2). -/
def persistingInputs : List TickInput :=
  [okInput 1 (some [0]) 100, okInput 2 (some [0]) 101]

/-- An arrival tick (two boxes) whose `results[0].plot()` call fails. -/
def photoFailInput : TickInput := ⟨true, 1, some [0, 1], 100, false, true, true, true, false⟩

/-- A tick whose frame read fails. -/
def badReadInput : TickInput := ⟨false, 9, none, 200, true, true, true, true, false⟩

/-!
## Theorems

Generic lemmas about the tick function, then one theorem per claim.
-/

/-- A failed frame read emits exactly the warning and stops the loop. -/
theorem tick_read_fail (cooldown : ℤ) (s : LoopState) (inp : TickInput)
    (h : inp.ret = false) :
    tick cooldown s inp = ⟨s, [Effect.logReadWarning], false⟩ := by
  simp [tick, h]

/-- On a successful read, the tick's effects are the transition branch's
effects, then the display block, then the optional quit log. -/
theorem tick_effects_eq (cooldown : ℤ) (s : LoopState) (inp : TickInput)
    (h : inp.ret = true) :
    (tick cooldown s inp).effects =
      (transitionStep cooldown s inp).1
        ++ displayEffects (detectedNow inp.results)
            (transitionStep cooldown s inp).2.annotated_frame inp.frame inp.imshow_ok
        ++ (if inp.quit_key then [Effect.logQuit] else []) := by
  cases hq : inp.quit_key <;> simp [tick, h, hq]

/-- On a successful read, the tick's state is the transition branch's state. -/
theorem tick_state_eq (cooldown : ℤ) (s : LoopState) (inp : TickInput)
    (h : inp.ret = true) :
    (tick cooldown s inp).state = (transitionStep cooldown s inp).2 := by
  cases hq : inp.quit_key <;> simp [tick, h, hq]

/-- On a successful read, the loop keeps running iff `q` was not pressed. -/
theorem tick_running_eq (cooldown : ℤ) (s : LoopState) (inp : TickInput)
    (h : inp.ret = true) :
    (tick cooldown s inp).running = !inp.quit_key := by
  cases hq : inp.quit_key <;> simp [tick, h, hq]

/-- The transition branch on a fresh detection is the arrival branch. -/
theorem transitionStep_arrived (cooldown : ℤ) (s : LoopState) (inp : TickInput)
    (hd : detectedNow inp.results = true) (hp : s.person_detected_previously = false) :
    transitionStep cooldown s inp = arrivedEffects cooldown s inp := by
  simp [transitionStep, hd, hp]

/-- The transition branch on a disappearance is the departure branch. -/
theorem transitionStep_departed (cooldown : ℤ) (s : LoopState) (inp : TickInput)
    (hd : detectedNow inp.results = false) (hp : s.person_detected_previously = true) :
    transitionStep cooldown s inp
      = ([Effect.logDeparted], { s with person_detected_previously := false }) := by
  simp [transitionStep, hd, hp]

/-- When the detection flag matches the stored flag, the transition branch
emits nothing and leaves the state untouched. -/
theorem transitionStep_noop (cooldown : ℤ) (s : LoopState) (inp : TickInput)
    (hd : detectedNow inp.results = s.person_detected_previously) :
    transitionStep cooldown s inp = ([], s) := by
  cases hb : s.person_detected_previously <;> rw [hb] at hd <;>
    simp [transitionStep, hd, hb]

/-- The photo block always emits exactly one persistence-attempt effect. -/
theorem photoEffects_fst (f : ℕ) (a : Option ℕ) (p w : Bool) :
    (photoEffects f a p w).1 = [Effect.photoSaved f]
    ∨ (photoEffects f a p w).1 = [Effect.logPhotoError] := by
  cases p <;> cases w <;> simp [photoEffects]

/-- The notification block always emits exactly one outcome effect. -/
theorem notifyEffects_fst (cooldown last now : ℤ) (ok : Bool) :
    (notifyEffects cooldown last now ok).1 = [Effect.notifySent]
    ∨ (notifyEffects cooldown last now ok).1 = [Effect.logNotifyError]
    ∨ (notifyEffects cooldown last now ok).1 = [Effect.logCooldownSkip] := by
  unfold notifyEffects tryFire
  split <;> cases ok <;> simp

/-- Gate open and delivery succeeding: notification sent and time recorded. -/
theorem notifyEffects_pos_ok (cooldown last now : ℤ) (h : now - last > cooldown) :
    notifyEffects cooldown last now true = ([Effect.notifySent], now) := by
  simp [notifyEffects, tryFire, h]

/-- Gate closed: the skip log, state unchanged. -/
theorem notifyEffects_neg (cooldown last now : ℤ) (ok : Bool)
    (h : ¬ now - last > cooldown) :
    notifyEffects cooldown last now ok = ([Effect.logCooldownSkip], last) := by
  simp [notifyEffects, tryFire, h]

/-- Every effect of the arrival branch belongs to the alert dispatch. -/
theorem arrivedEffects_alert (cooldown : ℤ) (s : LoopState) (inp : TickInput) :
    ∀ e ∈ (arrivedEffects cooldown s inp).1, isAlertEffect e = true := by
  intro e he
  rcases photoEffects_fst inp.frame s.annotated_frame inp.plot_ok inp.write_ok with h | h <;>
    rcases notifyEffects_fst cooldown s.last_notification_time inp.now inp.notify_ok
      with h2 | h2 | h2 <;>
    simp [arrivedEffects, h, h2] at he <;>
    rcases he with rfl | rfl | rfl <;> rfl

/-- No effect of the display block belongs to the alert dispatch. -/
theorem displayEffects_not_alert (d : Bool) (a : Option ℕ) (f : ℕ) (ok : Bool) :
    ∀ e ∈ displayEffects d a f ok, isAlertEffect e = false := by
  cases d <;> cases a <;> cases ok <;>
    simp [displayEffects, isAlertEffect]

/-- Every effect of the display block is a render effect. -/
theorem displayEffects_render (d : Bool) (a : Option ℕ) (f : ℕ) (ok : Bool) :
    ∀ e ∈ displayEffects d a f ok, isRenderEffect e = true := by
  cases d <;> cases a <;> cases ok <;>
    simp [displayEffects, isRenderEffect]

/-- No effect of the transition branch is a render effect. -/
theorem transitionStep_not_render (cooldown : ℤ) (s : LoopState) (inp : TickInput) :
    ∀ e ∈ (transitionStep cooldown s inp).1, isRenderEffect e = false := by
  intro e he
  have halert : isAlertEffect e = true := by
    unfold transitionStep at he
    split at he
    · exact arrivedEffects_alert cooldown s inp e he
    · split at he
      · simp only [List.mem_singleton] at he; subst he; rfl
      · simp at he
  cases e <;> first | rfl | exact absurd halert (by simp [isAlertEffect])

/-- Counting Arrived logs distributes over concatenation. -/
theorem countArrived_append (l1 l2 : List Effect) :
    countArrived (l1 ++ l2) = countArrived l1 + countArrived l2 :=
  List.countP_append _ l1 l2

/-- Counting Departed logs distributes over concatenation. -/
theorem countDeparted_append (l1 l2 : List Effect) :
    countDeparted (l1 ++ l2) = countDeparted l1 + countDeparted l2 :=
  List.countP_append _ l1 l2

/-- An arrival branch emits exactly one Arrived log. -/
theorem countArrived_arrived (cooldown : ℤ) (s : LoopState) (inp : TickInput) :
    countArrived (arrivedEffects cooldown s inp).1 = 1 := by
  rcases photoEffects_fst inp.frame s.annotated_frame inp.plot_ok inp.write_ok with h | h <;>
    rcases notifyEffects_fst cooldown s.last_notification_time inp.now inp.notify_ok
      with h2 | h2 | h2 <;>
    simp [arrivedEffects, h, h2, countArrived, isArrivedLog,
      List.countP_cons, List.countP_append, List.countP_nil]

/-- An arrival branch emits no Departed log. -/
theorem countDeparted_arrived (cooldown : ℤ) (s : LoopState) (inp : TickInput) :
    countDeparted (arrivedEffects cooldown s inp).1 = 0 := by
  rcases photoEffects_fst inp.frame s.annotated_frame inp.plot_ok inp.write_ok with h | h <;>
    rcases notifyEffects_fst cooldown s.last_notification_time inp.now inp.notify_ok
      with h2 | h2 | h2 <;>
    simp [arrivedEffects, h, h2, countDeparted,
      List.countP_cons, List.countP_append, List.countP_nil]

/-- The display block contains no Arrived log. -/
theorem countArrived_display (d : Bool) (a : Option ℕ) (f : ℕ) (ok : Bool) :
    countArrived (displayEffects d a f ok) = 0 := by
  cases d <;> cases a <;> cases ok <;>
    simp [displayEffects, countArrived, isArrivedLog,
      List.countP_cons, List.countP_nil]

/-- The display block contains no Departed log. -/
theorem countDeparted_display (d : Bool) (a : Option ℕ) (f : ℕ) (ok : Bool) :
    countDeparted (displayEffects d a f ok) = 0 := by
  cases d <;> cases a <;> cases ok <;>
    simp [displayEffects, countDeparted, List.countP_cons, List.countP_nil]

/-- The empty effect list has no Arrived log. -/
theorem countArrived_nil : countArrived [] = 0 := rfl

/-- The quit log is not an Arrived log. -/
theorem countArrived_quit : countArrived [Effect.logQuit] = 0 := rfl

/-- The Departed log is not an Arrived log. -/
theorem countArrived_departed : countArrived [Effect.logDeparted] = 0 := rfl

/-- The empty effect list has no Departed log. -/
theorem countDeparted_nil : countDeparted [] = 0 := rfl

/-- The quit log is not a Departed log. -/
theorem countDeparted_quit : countDeparted [Effect.logQuit] = 0 := rfl

/-- The departure branch's log is one Departed log. -/
theorem countDeparted_departed : countDeparted [Effect.logDeparted] = 1 := rfl

/-- Per-tick Arrived count: one exactly on an Absent-to-Present edge. -/
theorem tick_countArrived (cooldown : ℤ) (s : LoopState) (inp : TickInput)
    (h : inp.ret = true) :
    countArrived (tick cooldown s inp).effects
      = (if detectedNow inp.results && !s.person_detected_previously then 1 else 0) := by
  rw [tick_effects_eq cooldown s inp h]
  cases hd : detectedNow inp.results <;> cases hp : s.person_detected_previously <;>
    cases hq : inp.quit_key <;>
    simp only [transitionStep, hd, hp, hq, Bool.not_false, Bool.not_true, Bool.and_self,
      Bool.and_false, Bool.and_true, Bool.false_and, Bool.true_and, if_true, if_false,
      Bool.false_eq_true, Bool.true_eq_false, ite_true, ite_false,
      countArrived_append, countArrived_arrived, countArrived_display,
      countArrived_nil, countArrived_quit, countArrived_departed,
      List.nil_append, List.append_nil]

/-- Per-tick Departed count: one exactly on a Present-to-Absent edge. -/
theorem tick_countDeparted (cooldown : ℤ) (s : LoopState) (inp : TickInput)
    (h : inp.ret = true) :
    countDeparted (tick cooldown s inp).effects
      = (if !(detectedNow inp.results) && s.person_detected_previously then 1 else 0) := by
  rw [tick_effects_eq cooldown s inp h]
  cases hd : detectedNow inp.results <;> cases hp : s.person_detected_previously <;>
    cases hq : inp.quit_key <;>
    simp only [transitionStep, hd, hp, hq, Bool.not_false, Bool.not_true, Bool.and_self,
      Bool.and_false, Bool.and_true, Bool.false_and, Bool.true_and, if_true, if_false,
      Bool.false_eq_true, Bool.true_eq_false, ite_true, ite_false,
      countDeparted_append, countDeparted_arrived, countDeparted_display,
      countDeparted_nil, countDeparted_quit, countDeparted_departed,
      List.nil_append, List.append_nil]

/-- After a processed tick the stored flag equals this tick's detection. -/
theorem tick_prev_eq (cooldown : ℤ) (s : LoopState) (inp : TickInput)
    (h : inp.ret = true) :
    (tick cooldown s inp).state.person_detected_previously = detectedNow inp.results := by
  rw [tick_state_eq cooldown s inp h]
  cases hd : detectedNow inp.results <;> cases hp : s.person_detected_previously <;>
    simp [transitionStep, hd, hp, arrivedEffects]

/-- Whole-run Arrived count equals the number of rising edges. -/
theorem runLoop_countArrived (cooldown : ℤ) (s : LoopState) (inputs : List TickInput)
    (hall : ∀ i ∈ inputs, i.ret = true ∧ i.quit_key = false) :
    countArrived (runLoop cooldown s inputs).1
      = specArrivals s.person_detected_previously
          (inputs.map fun i => detectedNow i.results) := by
  induction inputs generalizing s with
  | nil => simp [runLoop, specArrivals, countArrived, List.countP_nil]
  | cons i rest ih =>
    obtain ⟨hr, hq⟩ := hall i (List.mem_cons_self i rest)
    have hrun : (tick cooldown s i).running = true := by
      rw [tick_running_eq cooldown s i hr, hq]; rfl
    rw [runLoop]
    simp only [hrun, if_true]
    rw [countArrived_append, tick_countArrived cooldown s i hr,
      ih _ fun j hj => hall j (List.mem_cons_of_mem i hj)]
    rw [tick_prev_eq cooldown s i hr]
    simp [specArrivals]

/-- Whole-run Departed count equals the number of falling edges. -/
theorem runLoop_countDeparted (cooldown : ℤ) (s : LoopState) (inputs : List TickInput)
    (hall : ∀ i ∈ inputs, i.ret = true ∧ i.quit_key = false) :
    countDeparted (runLoop cooldown s inputs).1
      = specDepartures s.person_detected_previously
          (inputs.map fun i => detectedNow i.results) := by
  induction inputs generalizing s with
  | nil => simp [runLoop, specDepartures, countDeparted, List.countP_nil]
  | cons i rest ih =>
    obtain ⟨hr, hq⟩ := hall i (List.mem_cons_self i rest)
    have hrun : (tick cooldown s i).running = true := by
      rw [tick_running_eq cooldown s i hr, hq]; rfl
    rw [runLoop]
    simp only [hrun, if_true]
    rw [countDeparted_append, tick_countDeparted cooldown s i hr,
      ih _ fun j hj => hall j (List.mem_cons_of_mem i hj)]
    rw [tick_prev_eq cooldown s i hr]
    simp [specDepartures]

/-- Claim C1: the presence tracker is an edge-triggered 2-state machine.
Starting state is Absent (`person_detected_previously = false`); on every
processed tick the stored flag becomes this tick's detection boolean; an
Arrived log is emitted exactly on Absent-to-Present edges and a Departed
log exactly on Present-to-Absent edges (per tick, and counted over any
sequence of processed ticks); a tick whose detection boolean equals the
current state changes nothing and emits no event. -/
theorem presence_tracker_edge_triggered (cooldown : ℤ) (s : LoopState)
    (inp : TickInput) (inputs : List TickInput)
    (hret : inp.ret = true)
    (hall : ∀ i ∈ inputs, i.ret = true ∧ i.quit_key = false) :
    initState.person_detected_previously = false
    ∧ (tick cooldown s inp).state.person_detected_previously = detectedNow inp.results
    ∧ countArrived (tick cooldown s inp).effects
        = (if detectedNow inp.results && !s.person_detected_previously then 1 else 0)
    ∧ countDeparted (tick cooldown s inp).effects
        = (if !(detectedNow inp.results) && s.person_detected_previously then 1 else 0)
    ∧ (detectedNow inp.results = s.person_detected_previously →
        (tick cooldown s inp).state = s
        ∧ countArrived (tick cooldown s inp).effects = 0
        ∧ countDeparted (tick cooldown s inp).effects = 0)
    ∧ countArrived (runLoop cooldown s inputs).1
        = specArrivals s.person_detected_previously
            (inputs.map fun i => detectedNow i.results)
    ∧ countDeparted (runLoop cooldown s inputs).1
        = specDepartures s.person_detected_previously
            (inputs.map fun i => detectedNow i.results) := by
  refine ⟨rfl, tick_prev_eq cooldown s inp hret, tick_countArrived cooldown s inp hret,
    tick_countDeparted cooldown s inp hret, ?_, runLoop_countArrived cooldown s inputs hall,
    runLoop_countDeparted cooldown s inputs hall⟩
  intro heq
  refine ⟨?_, ?_, ?_⟩
  · rw [tick_state_eq cooldown s inp hret, transitionStep_noop cooldown s inp heq]
  · rw [tick_countArrived cooldown s inp hret, heq]
    cases s.person_detected_previously <;> rfl
  · rw [tick_countDeparted cooldown s inp hret, heq]
    cases s.person_detected_previously <;> rfl

/-- Witness for C1 at a concrete arrival tick and the concrete
alternating-detection input sequence. -/
theorem presence_tracker_edge_triggered_witness :
    ((okInput 1 (some [0]) 100).ret = true
        ∧ (∀ i ∈ alternatingInputs 100, i.ret = true ∧ i.quit_key = false))
    ∧ countArrived (runLoop 15 initState (alternatingInputs 100)).1
        = specArrivals initState.person_detected_previously
            ((alternatingInputs 100).map fun i => detectedNow i.results) :=
  ⟨⟨by decide, by decide⟩,
   (presence_tracker_edge_triggered 15 initState (okInput 1 (some [0]) 100)
      (alternatingInputs 100) (by decide) (by decide)).2.2.2.2.2.1⟩

/-- Counterexample for C2: with cooldown 15, `last_notification_time = 0`,
a call at time 16 whose delivery fails: the gate condition holds and the
gate fires, yet `last_fired_at` is NOT recorded (the update sits after the
`notification.notify` call inside the `try` block), so returning true does
not coincide with recording `last_fired_at = now` as the claim states. -/
theorem cooldown_gate_claim_counterexample :
    ¬ (((tryFire 15 0 16 false).1 = true ∧ (tryFire 15 0 16 false).2 = 16)
        ↔ (16 : ℤ) - 0 > 15) := by decide

/-- Claim C2 amended: the gate returns true iff
`now - last_notification_time > cooldown` (there is no `none` state;
`last_notification_time` is initialized to 0); it records
`last_fired_at = now` iff it returns true AND the notification delivery
succeeds; in every other case the state is left unchanged. -/
theorem cooldown_gate_amended (cooldown last now : ℤ) (notify_ok : Bool) :
    ((tryFire cooldown last now notify_ok).1 = true ↔ now - last > cooldown)
    ∧ (tryFire cooldown last now notify_ok).2
        = (if (tryFire cooldown last now notify_ok).1 && notify_ok then now else last) := by
  unfold tryFire
  split <;> cases notify_ok <;> simp_all

/-- Counterexample for C3: two gate decisions at times 16 and 17 with
cooldown 15 (so within one cooldown window) both return true, because the
first call's delivery failed and therefore did not record its time. -/
theorem cooldown_window_claim_counterexample :
    gateRun 15 0 [(16, false), (17, true)] = [true, true]
    ∧ (16 : ℤ) < 17 ∧ (17 : ℤ) - 16 ≤ 15 := by decide

/-- A gate trace over a concatenation splits at the accumulated time. -/
theorem gateRun_append (cooldown last : ℤ) (xs ys : List (ℤ × Bool)) :
    gateRun cooldown last (xs ++ ys)
      = gateRun cooldown last xs ++ gateRun cooldown (lastAfter cooldown last xs) ys := by
  induction xs generalizing last with
  | nil => simp [gateRun, lastAfter]
  | cons c rest ih => simp [gateRun, lastAfter, ih]

/-- A gate trace has one decision per call. -/
theorem gateRun_length (cooldown last : ℤ) (xs : List (ℤ × Bool)) :
    (gateRun cooldown last xs).length = xs.length := by
  induction xs generalizing last with
  | nil => rfl
  | cons c rest ih => simp [gateRun, ih]

/-- The recorded time never drops below a bound respected by its current
value and by every call time in the trace. -/
theorem lastAfter_lower_bound (cooldown t : ℤ) (xs : List (ℤ × Bool)) (last : ℤ)
    (hlast : t ≤ last) (hxs : ∀ c ∈ xs, t ≤ c.1) :
    t ≤ lastAfter cooldown last xs := by
  induction xs generalizing last with
  | nil => simpa [lastAfter] using hlast
  | cons c rest ih =>
    simp only [lastAfter]
    refine ih _ ?_ fun d hd => hxs d (List.mem_cons_of_mem c hd)
    unfold tryFire
    split
    · cases hc : c.2
      · simpa [hc] using hlast
      · simpa [hc] using hxs c (List.mem_cons_self c rest)
    · simpa using hlast

/-- A firing gate call with successful delivery records the call time. -/
theorem tryFire_snd_of_fired (cooldown last now : ℤ)
    (h : (tryFire cooldown last now true).1 = true) :
    (tryFire cooldown last now true).2 = now := by
  unfold tryFire at h ⊢
  split at h <;> simp_all

/-- A call inside the window does not fire. -/
theorem tryFire_fst_neg (cooldown last now : ℤ) (ok : Bool)
    (h : ¬ now - last > cooldown) :
    (tryFire cooldown last now ok).1 = false := by
  simp [tryFire, h]

/-- Claim C3 amended: the gate fires at most once per window provided the
earlier firing's delivery succeeds.  For any trace of gate calls, if the
call at time `t1` (with successful delivery) fires, every later call at a
time `t2` with `t2 - t1 ≤ cooldown` — the intermediate calls occurring no
earlier than `t1` — returns false.  (If the earlier delivery fails, the
time is not recorded and the gate can fire twice in one window, as the
counterexample shows.) -/
theorem cooldown_window_amended (cooldown last0 t1 t2 : ℤ) (ok2 : Bool)
    (pre mid post : List (ℤ × Bool))
    (h12 : t1 < t2) (hwin : t2 - t1 ≤ cooldown)
    (hmid : ∀ c ∈ mid, t1 ≤ c.1)
    (hfire : (gateRun cooldown last0
        (pre ++ (t1, true) :: (mid ++ (t2, ok2) :: post)))[pre.length]? = some true) :
    (gateRun cooldown last0
        (pre ++ (t1, true) :: (mid ++ (t2, ok2) :: post)))[pre.length + 1 + mid.length]?
      = some false := by
  have hsplit : gateRun cooldown last0 (pre ++ (t1, true) :: (mid ++ (t2, ok2) :: post))
      = gateRun cooldown last0 pre
        ++ gateRun cooldown (lastAfter cooldown last0 pre)
            ((t1, true) :: (mid ++ (t2, ok2) :: post)) :=
    gateRun_append cooldown last0 pre _
  have hlen : (gateRun cooldown last0 pre).length = pre.length :=
    gateRun_length cooldown last0 pre
  rw [hsplit, List.getElem?_append_right (le_of_eq hlen), hlen, Nat.sub_self] at hfire
  simp only [gateRun, List.getElem?_cons_zero, Option.some.injEq] at hfire
  have hrec : (tryFire cooldown (lastAfter cooldown last0 pre) t1 true).2 = t1 :=
    tryFire_snd_of_fired cooldown (lastAfter cooldown last0 pre) t1 hfire
  rw [hsplit, List.getElem?_append_right (by omega), hlen]
  have hidx : pre.length + 1 + mid.length - pre.length = mid.length + 1 := by omega
  rw [hidx]
  simp only [gateRun, List.getElem?_cons_succ]
  rw [hrec, gateRun_append cooldown t1 mid ((t2, ok2) :: post),
    List.getElem?_append_right (le_of_eq (gateRun_length cooldown t1 mid)),
    gateRun_length cooldown t1 mid, Nat.sub_self]
  simp only [gateRun, List.getElem?_cons_zero, Option.some.injEq]
  have hl2 : t1 ≤ lastAfter cooldown t1 mid :=
    lastAfter_lower_bound cooldown t1 mid t1 le_rfl hmid
  exact tryFire_fst_neg cooldown (lastAfter cooldown t1 mid) t2 ok2 (by omega)

/-- Witness for C3 amended: cooldown 15, calls at times 16 (delivery
succeeds, fires) and 17; the second decision, one second later, is false. -/
theorem cooldown_window_amended_witness :
    ((16 : ℤ) < 17 ∧ (17 : ℤ) - 16 ≤ 15
      ∧ (∀ c ∈ ([] : List (ℤ × Bool)), (16 : ℤ) ≤ c.1)
      ∧ (gateRun 15 0 [(16, true), (17, true)])[0]? = some true)
    ∧ (gateRun 15 0 [(16, true), (17, true)])[1]? = some false :=
  ⟨⟨by decide, by decide, by decide, by decide⟩,
   cooldown_window_amended 15 0 16 17 true [] [] []
     (by decide) (by decide) (by decide) (by decide)⟩

/-- Claim C4: for detections true, false, true, false, true at one-second
ticks (session start `t0` after the cooldown horizon, as a wall-clock
`time.time()` value always is) with cooldown 15, the run emits 3 Arrived
and 2 Departed events with a log record each, attempts (and here saves) a
photo for all 3 Arrived events, and delivers only the first Arrived
notification — the Arrived events 2 and 4 seconds later are skipped by
cooldown. -/
theorem scenario_alternating_detections (t0 : ℤ) (h : 15 < t0) :
    (runLoop 15 initState (alternatingInputs t0)).1
      = [Effect.logArrived 1, Effect.photoSaved 1, Effect.notifySent,
         Effect.displayAnnotated 1,
         Effect.logDeparted, Effect.displayRaw 2,
         Effect.logArrived 1, Effect.photoSaved 3, Effect.logCooldownSkip,
         Effect.displayAnnotated 3,
         Effect.logDeparted, Effect.displayRaw 4,
         Effect.logArrived 1, Effect.photoSaved 5, Effect.logCooldownSkip,
         Effect.displayAnnotated 5]
    ∧ countArrived (runLoop 15 initState (alternatingInputs t0)).1 = 3
    ∧ countDeparted (runLoop 15 initState (alternatingInputs t0)).1 = 2
    ∧ (runLoop 15 initState (alternatingInputs t0)).1.countP isPhotoAttempt = 3
    ∧ (runLoop 15 initState (alternatingInputs t0)).1.countP
        (fun e => decide (e = Effect.notifySent)) = 1 := by
  have e1 : tick 15 initState (okInput 1 (some [0]) t0)
      = ⟨⟨true, t0, some 1⟩,
         [Effect.logArrived 1, Effect.photoSaved 1, Effect.notifySent,
          Effect.displayAnnotated 1], true⟩ := by
    have hg : t0 - 0 > 15 := by omega
    simp [tick, okInput, transitionStep, detectedNow, boxCount, arrivedEffects,
      photoEffects, notifyEffects_pos_ok 15 0 t0 hg, displayEffects, initState]
  have e2 : tick 15 ⟨true, t0, some 1⟩ (okInput 2 none (t0 + 1))
      = ⟨⟨false, t0, some 1⟩, [Effect.logDeparted, Effect.displayRaw 2], true⟩ := by
    simp [tick, okInput, transitionStep, detectedNow, displayEffects]
  have e3 : tick 15 ⟨false, t0, some 1⟩ (okInput 3 (some [0]) (t0 + 2))
      = ⟨⟨true, t0, some 3⟩,
         [Effect.logArrived 1, Effect.photoSaved 3, Effect.logCooldownSkip,
          Effect.displayAnnotated 3], true⟩ := by
    have hg : ¬ t0 + 2 - t0 > 15 := by omega
    simp [tick, okInput, transitionStep, detectedNow, boxCount, arrivedEffects,
      photoEffects, notifyEffects_neg 15 t0 (t0 + 2) true hg, displayEffects]
  have e4 : tick 15 ⟨true, t0, some 3⟩ (okInput 4 none (t0 + 3))
      = ⟨⟨false, t0, some 3⟩, [Effect.logDeparted, Effect.displayRaw 4], true⟩ := by
    simp [tick, okInput, transitionStep, detectedNow, displayEffects]
  have e5 : tick 15 ⟨false, t0, some 3⟩ (okInput 5 (some [0]) (t0 + 4))
      = ⟨⟨true, t0, some 5⟩,
         [Effect.logArrived 1, Effect.photoSaved 5, Effect.logCooldownSkip,
          Effect.displayAnnotated 5], true⟩ := by
    have hg : ¬ t0 + 4 - t0 > 15 := by omega
    simp [tick, okInput, transitionStep, detectedNow, boxCount, arrivedEffects,
      photoEffects, notifyEffects_neg 15 t0 (t0 + 4) true hg, displayEffects]
  have E : (runLoop 15 initState (alternatingInputs t0)).1
      = [Effect.logArrived 1, Effect.photoSaved 1, Effect.notifySent,
         Effect.displayAnnotated 1,
         Effect.logDeparted, Effect.displayRaw 2,
         Effect.logArrived 1, Effect.photoSaved 3, Effect.logCooldownSkip,
         Effect.displayAnnotated 3,
         Effect.logDeparted, Effect.displayRaw 4,
         Effect.logArrived 1, Effect.photoSaved 5, Effect.logCooldownSkip,
         Effect.displayAnnotated 5] := by
    simp [alternatingInputs, runLoop, e1, e2, e3, e4, e5]
  exact ⟨E, by rw [E]; decide, by rw [E]; decide, by rw [E]; decide, by rw [E]; decide⟩

/-- Witness for C4 at the concrete session start time 100. -/
theorem scenario_alternating_detections_witness :
    (15 : ℤ) < 100
    ∧ countArrived (runLoop 15 initState (alternatingInputs 100)).1 = 3
    ∧ countDeparted (runLoop 15 initState (alternatingInputs 100)).1 = 2
    ∧ (runLoop 15 initState (alternatingInputs 100)).1.countP isPhotoAttempt = 3
    ∧ (runLoop 15 initState (alternatingInputs 100)).1.countP
        (fun e => decide (e = Effect.notifySent)) = 1 :=
  ⟨by decide, (scenario_alternating_detections 100 (by decide)).2⟩

/-- Alert filtering drops the whole display block. -/
theorem filter_alert_display (d : Bool) (a : Option ℕ) (f : ℕ) (ok : Bool) :
    (displayEffects d a f ok).filter isAlertEffect = [] :=
  List.filter_eq_nil_iff.mpr (by simpa using displayEffects_not_alert d a f ok)

/-- Alert filtering keeps the whole transition branch. -/
theorem filter_alert_transition (cooldown : ℤ) (s : LoopState) (inp : TickInput) :
    (transitionStep cooldown s inp).1.filter isAlertEffect
      = (transitionStep cooldown s inp).1 := by
  unfold transitionStep
  split
  · exact List.filter_eq_self.mpr (by
      simpa [transitionStep] using arrivedEffects_alert cooldown s inp)
  · split <;> rfl

/-- On a processed tick, the alert effects are exactly the transition
branch's effects, in order. -/
theorem tick_filter_alert (cooldown : ℤ) (s : LoopState) (inp : TickInput)
    (h : inp.ret = true) :
    (tick cooldown s inp).effects.filter isAlertEffect
      = (transitionStep cooldown s inp).1 := by
  rw [tick_effects_eq cooldown s inp h, List.filter_append, List.filter_append,
    filter_alert_display, filter_alert_transition]
  cases hq : inp.quit_key <;> simp [isAlertEffect]

/-- Claim C5: on every Arrived event the log record and the
snapshot-persistence attempt happen unconditionally — the alert effects of
an arrival tick are exactly the Arrived log (with the box count), one photo
attempt, and one notification outcome, for every cooldown state and every
delivery outcome; on every Departed event the alert effects are exactly one
info log: no photo, no notification. -/
theorem dispatch_logging_unconditional (cooldown : ℤ) (s : LoopState) (inp : TickInput)
    (hret : inp.ret = true) :
    (detectedNow inp.results = true → s.person_detected_previously = false →
      ∃ ph nt, (tick cooldown s inp).effects.filter isAlertEffect
          = [Effect.logArrived (boxCount inp.results), ph, nt]
        ∧ isPhotoAttempt ph = true ∧ isNotifyOutcome nt = true)
    ∧ (detectedNow inp.results = false → s.person_detected_previously = true →
      (tick cooldown s inp).effects.filter isAlertEffect = [Effect.logDeparted]) := by
  constructor
  · intro hd hp
    rw [tick_filter_alert cooldown s inp hret, transitionStep_arrived cooldown s inp hd hp]
    rcases photoEffects_fst inp.frame s.annotated_frame inp.plot_ok inp.write_ok with h1 | h1 <;>
      rcases notifyEffects_fst cooldown s.last_notification_time inp.now inp.notify_ok
        with h2 | h2 | h2
    · exact ⟨Effect.photoSaved inp.frame, Effect.notifySent,
        by simp [arrivedEffects, h1, h2], rfl, rfl⟩
    · exact ⟨Effect.photoSaved inp.frame, Effect.logNotifyError,
        by simp [arrivedEffects, h1, h2], rfl, rfl⟩
    · exact ⟨Effect.photoSaved inp.frame, Effect.logCooldownSkip,
        by simp [arrivedEffects, h1, h2], rfl, rfl⟩
    · exact ⟨Effect.logPhotoError, Effect.notifySent,
        by simp [arrivedEffects, h1, h2], rfl, rfl⟩
    · exact ⟨Effect.logPhotoError, Effect.logNotifyError,
        by simp [arrivedEffects, h1, h2], rfl, rfl⟩
    · exact ⟨Effect.logPhotoError, Effect.logCooldownSkip,
        by simp [arrivedEffects, h1, h2], rfl, rfl⟩
  · intro hd hp
    rw [tick_filter_alert cooldown s inp hret, transitionStep_departed cooldown s inp hd hp]

/-- Witness for C5: an arrival tick taken while the cooldown is still in
effect (last notification at time 100, tick at 101) still logs and still
attempts the photo. -/
theorem dispatch_logging_unconditional_witness :
    ((okInput 3 (some [0]) 101).ret = true
      ∧ detectedNow (okInput 3 (some [0]) 101).results = true
      ∧ (⟨false, 100, some 1⟩ : LoopState).person_detected_previously = false)
    ∧ ∃ ph nt,
        (tick 15 ⟨false, 100, some 1⟩ (okInput 3 (some [0]) 101)).effects.filter isAlertEffect
          = [Effect.logArrived (boxCount (okInput 3 (some [0]) 101).results), ph, nt]
        ∧ isPhotoAttempt ph = true ∧ isNotifyOutcome nt = true :=
  ⟨⟨by decide, by decide, by decide⟩,
   (dispatch_logging_unconditional 15 ⟨false, 100, some 1⟩ (okInput 3 (some [0]) 101)
      (by decide)).1 (by decide) (by decide)⟩

/-- Claim C6: when the snapshot attempt of an arrival tick fails, the
failure is logged at error severity right after the already-written Arrived
log, the notification block (cooldown check and delivery attempt) still
runs and produces its one outcome, and the loop goes on to the next tick. -/
theorem photo_failure_fail_soft (cooldown : ℤ) (s : LoopState) (inp : TickInput)
    (rest : List TickInput)
    (hret : inp.ret = true)
    (hd : detectedNow inp.results = true) (hp : s.person_detected_previously = false)
    (hfail : inp.plot_ok = false ∨ inp.write_ok = false)
    (hq : inp.quit_key = false) :
    (tick cooldown s inp).effects.filter isAlertEffect
        = Effect.logArrived (boxCount inp.results) :: Effect.logPhotoError
            :: (notifyEffects cooldown s.last_notification_time inp.now inp.notify_ok).1
    ∧ ((notifyEffects cooldown s.last_notification_time inp.now inp.notify_ok).1
          = [Effect.notifySent]
        ∨ (notifyEffects cooldown s.last_notification_time inp.now inp.notify_ok).1
          = [Effect.logNotifyError]
        ∨ (notifyEffects cooldown s.last_notification_time inp.now inp.notify_ok).1
          = [Effect.logCooldownSkip])
    ∧ (tick cooldown s inp).running = true
    ∧ (runLoop cooldown s (inp :: rest)).1
        = (tick cooldown s inp).effects
            ++ (runLoop cooldown (tick cooldown s inp).state rest).1 := by
  have hphoto : (photoEffects inp.frame s.annotated_frame inp.plot_ok inp.write_ok).1
      = [Effect.logPhotoError] := by
    rcases hfail with hf | hf
    · simp [photoEffects, hf]
    · cases hplot : inp.plot_ok <;> simp [photoEffects, hf, hplot]
  have hrun : (tick cooldown s inp).running = true := by
    rw [tick_running_eq cooldown s inp hret, hq]; rfl
  refine ⟨?_, notifyEffects_fst cooldown s.last_notification_time inp.now inp.notify_ok,
    hrun, ?_⟩
  · rw [tick_filter_alert cooldown s inp hret, transitionStep_arrived cooldown s inp hd hp]
    simp [arrivedEffects, hphoto]
  · rw [runLoop]
    simp [hrun]

/-- Witness for C6: the concrete arrival tick with a failing `plot` call,
followed by one more tick that the loop still processes. -/
theorem photo_failure_fail_soft_witness :
    (photoFailInput.ret = true
      ∧ detectedNow photoFailInput.results = true
      ∧ initState.person_detected_previously = false
      ∧ (photoFailInput.plot_ok = false ∨ photoFailInput.write_ok = false)
      ∧ photoFailInput.quit_key = false)
    ∧ (tick 15 initState photoFailInput).effects.filter isAlertEffect
        = Effect.logArrived (boxCount photoFailInput.results) :: Effect.logPhotoError
            :: (notifyEffects 15 initState.last_notification_time photoFailInput.now
                  photoFailInput.notify_ok).1 :=
  ⟨⟨by decide, by decide, by decide, by decide, by decide⟩,
   (photo_failure_fail_soft 15 initState photoFailInput [okInput 2 none 101]
      (by decide) (by decide) (by decide) (by decide) (by decide)).1⟩

/-- Render filtering keeps the whole display block. -/
theorem filter_render_display (d : Bool) (a : Option ℕ) (f : ℕ) (ok : Bool) :
    (displayEffects d a f ok).filter isRenderEffect = displayEffects d a f ok :=
  List.filter_eq_self.mpr (displayEffects_render d a f ok)

/-- Render filtering drops the whole transition branch. -/
theorem filter_render_transition (cooldown : ℤ) (s : LoopState) (inp : TickInput) :
    (transitionStep cooldown s inp).1.filter isRenderEffect = [] :=
  List.filter_eq_nil_iff.mpr (by simpa using transitionStep_not_render cooldown s inp)

/-- On a processed tick, the render effects are exactly the display block's
output computed from the post-transition annotated frame. -/
theorem tick_filter_render (cooldown : ℤ) (s : LoopState) (inp : TickInput)
    (h : inp.ret = true) :
    (tick cooldown s inp).effects.filter isRenderEffect
      = displayEffects (detectedNow inp.results)
          (transitionStep cooldown s inp).2.annotated_frame inp.frame inp.imshow_ok := by
  rw [tick_effects_eq cooldown s inp h, List.filter_append, List.filter_append,
    filter_render_transition, filter_render_display]
  cases hq : inp.quit_key <;> simp [isRenderEffect]

/-- Counterexample for C7: two consecutive detecting ticks (frames 1 then
2); the second tick renders the annotated frame made from frame 1, not any
form of this tick's frame 2, so the frame rendered is not the frame
acquired on that tick. -/
theorem render_claim_counterexample :
    (runLoop 15 initState persistingInputs).1.filter isRenderEffect
      = [Effect.displayAnnotated 1, Effect.displayAnnotated 1]
    ∧ (persistingInputs.get ⟨1, by decide⟩).frame = 2
    ∧ detectedNow (persistingInputs.get ⟨1, by decide⟩).results = true
    ∧ Effect.displayAnnotated 1 ≠ Effect.displayAnnotated 2 := by decide

/-- Claim C7 amended: each processed tick renders exactly once; a
no-detection tick renders this tick's raw frame; a detection tick renders
the stored annotated frame, which is set to (an annotated copy of) this
tick's frame only on an Arrived transition whose `plot` call succeeds and
is otherwise left over from the most recent such arrival (rendering fails,
with a logged error, if no annotated frame exists yet); `imshow` failure is
logged, and a render failure never stops the loop. -/
theorem render_amended (cooldown : ℤ) (s : LoopState) (inp : TickInput)
    (hret : inp.ret = true) :
    (tick cooldown s inp).effects.filter isRenderEffect
      = displayEffects (detectedNow inp.results)
          (if detectedNow inp.results && !s.person_detected_previously && inp.plot_ok
           then some inp.frame else s.annotated_frame)
          inp.frame inp.imshow_ok
    ∧ (tick cooldown s inp).running = !inp.quit_key := by
  refine ⟨?_, tick_running_eq cooldown s inp hret⟩
  rw [tick_filter_render cooldown s inp hret]
  congr 1
  cases hd : detectedNow inp.results <;> cases hp : s.person_detected_previously <;>
    cases hplot : inp.plot_ok <;> cases hw : inp.write_ok <;>
    simp [transitionStep, hd, hp, hplot, hw, arrivedEffects, photoEffects]

/-- Witness for C7 amended: a second consecutive detection tick (frame 2)
renders the stored annotated frame. -/
theorem render_amended_witness :
    (okInput 2 (some [0]) 101).ret = true
    ∧ ((tick 15 ⟨true, 100, some 1⟩ (okInput 2 (some [0]) 101)).effects.filter isRenderEffect
        = displayEffects (detectedNow (okInput 2 (some [0]) 101).results)
            (if detectedNow (okInput 2 (some [0]) 101).results
                && !(⟨true, 100, some 1⟩ : LoopState).person_detected_previously
                && (okInput 2 (some [0]) 101).plot_ok
             then some (okInput 2 (some [0]) 101).frame
             else (⟨true, 100, some 1⟩ : LoopState).annotated_frame)
            (okInput 2 (some [0]) 101).frame (okInput 2 (some [0]) 101).imshow_ok
      ∧ (tick 15 ⟨true, 100, some 1⟩ (okInput 2 (some [0]) 101)).running
          = !(okInput 2 (some [0]) 101).quit_key) :=
  ⟨by decide, render_amended 15 ⟨true, 100, some 1⟩ (okInput 2 (some [0]) 101) (by decide)⟩

/-- Counterexample for C8: two distinct timestamps in the same second
(microsecond fields 0 and 999, both inside the same millisecond) yield the
same snapshot filename — the `[:-3]` truncation keeps only milliseconds,
so sub-millisecond distinctness is lost. -/
theorem filename_claim_counterexample :
    (⟨20250101, 120000, 0⟩ : Timestamp) ≠ (⟨20250101, 120000, 999⟩ : Timestamp)
    ∧ (⟨20250101, 120000, 0⟩ : Timestamp).ymd = (⟨20250101, 120000, 999⟩ : Timestamp).ymd
    ∧ (⟨20250101, 120000, 0⟩ : Timestamp).hms = (⟨20250101, 120000, 999⟩ : Timestamp).hms
    ∧ (⟨20250101, 120000, 0⟩ : Timestamp).micro < 1000000
    ∧ (⟨20250101, 120000, 999⟩ : Timestamp).micro < 1000000
    ∧ photoFilename ⟨20250101, 120000, 0⟩ = photoFilename ⟨20250101, 120000, 999⟩ := by
  decide

/-- Claim C8 amended: snapshot filenames embed the timestamp at MILLISECOND
precision: two Arrived events in the same second get distinct filenames iff
their timestamps differ in the millisecond component; timestamps equal at
millisecond granularity (differing only in microseconds) collide. -/
theorem filename_millisecond_uniqueness (t u : Timestamp)
    (hymd : t.ymd = u.ymd) (hhms : t.hms = u.hms)
    (ht : t.micro < 1000000) (hu : u.micro < 1000000) :
    photoFilename t = photoFilename u ↔ t.micro / 1000 = u.micro / 1000 := by
  simp [photoFilename, timestampStr, Prod.ext_iff, hymd, hhms]

/-- Witness for C8 amended: timestamps 1000µs and 1999µs into the same
second share the millisecond component 1 and so share a filename. -/
theorem filename_millisecond_uniqueness_witness :
    ((⟨1, 2, 1000⟩ : Timestamp).ymd = (⟨1, 2, 1999⟩ : Timestamp).ymd
      ∧ (⟨1, 2, 1000⟩ : Timestamp).hms = (⟨1, 2, 1999⟩ : Timestamp).hms
      ∧ (⟨1, 2, 1000⟩ : Timestamp).micro < 1000000
      ∧ (⟨1, 2, 1999⟩ : Timestamp).micro < 1000000)
    ∧ (photoFilename ⟨1, 2, 1000⟩ = photoFilename ⟨1, 2, 1999⟩
        ↔ (⟨1, 2, 1000⟩ : Timestamp).micro / 1000 = (⟨1, 2, 1999⟩ : Timestamp).micro / 1000) :=
  ⟨⟨by decide, by decide, by decide, by decide⟩,
   filename_millisecond_uniqueness ⟨1, 2, 1000⟩ ⟨1, 2, 1999⟩ rfl rfl (by decide) (by decide)⟩

/-- On a non-breaking tick the loop's effects start with this tick's. -/
theorem runLoop_cons_effects (cooldown : ℤ) (s : LoopState) (i : TickInput)
    (l : List TickInput) (hrun : (tick cooldown s i).running = true) :
    (runLoop cooldown s (i :: l)).1
      = (tick cooldown s i).effects ++ (runLoop cooldown (tick cooldown s i).state l).1 := by
  simp [runLoop, hrun]

/-- A running session step: on a non-breaking tick the remaining inputs
are processed and the tick's effects are emitted first. -/
theorem session_cons (cooldown : ℤ) (s : LoopState) (i : TickInput) (l : List TickInput)
    (hrun : (tick cooldown s i).running = true) :
    session cooldown s (i :: l)
      = (tick cooldown s i).effects ++ session cooldown (tick cooldown s i).state l := by
  simp [session, runLoop, hrun, List.append_assoc]

/-- A breaking tick ends the session: its effects, then the cleanup. -/
theorem session_break (cooldown : ℤ) (s : LoopState) (i : TickInput) (l : List TickInput)
    (hrun : (tick cooldown s i).running = false) :
    session cooldown s (i :: l) = (tick cooldown s i).effects ++ cleanupEffects := by
  simp [session, runLoop, hrun]

/-- Claim C9: a single frame read failure logs exactly the warning,
terminates the loop right there — whatever inputs would have followed are
never processed — and the session still releases the capture, closes the
windows and logs the session end. -/
theorem read_failure_clean_termination (cooldown : ℤ) (s : LoopState)
    (pre rest : List TickInput) (bad : TickInput)
    (hpre : ∀ i ∈ pre, i.ret = true ∧ i.quit_key = false)
    (hbad : bad.ret = false) :
    session cooldown s (pre ++ bad :: rest)
      = (runLoop cooldown s pre).1 ++ Effect.logReadWarning :: cleanupEffects := by
  induction pre generalizing s with
  | nil =>
    have hrun : (tick cooldown s bad).running = false := by
      rw [tick_read_fail cooldown s bad hbad]
    rw [List.nil_append, session_break cooldown s bad rest hrun,
      tick_read_fail cooldown s bad hbad]
    simp [runLoop]
  | cons i pre ih =>
    obtain ⟨hr, hq⟩ := hpre i (List.mem_cons_self i pre)
    have hrun : (tick cooldown s i).running = true := by
      rw [tick_running_eq cooldown s i hr, hq]; rfl
    rw [List.cons_append, session_cons cooldown s i _ hrun,
      ih (tick cooldown s i).state fun j hj => hpre j (List.mem_cons_of_mem i hj),
      runLoop_cons_effects cooldown s i pre hrun, List.append_assoc]

/-- Witness for C9: one good tick, then a failed read, then one more input
that is never processed. -/
theorem read_failure_clean_termination_witness :
    ((∀ i ∈ [okInput 1 (some [0]) 100], i.ret = true ∧ i.quit_key = false)
      ∧ badReadInput.ret = false)
    ∧ session 15 initState ([okInput 1 (some [0]) 100] ++ badReadInput :: [okInput 7 none 300])
        = (runLoop 15 initState [okInput 1 (some [0]) 100]).1
            ++ Effect.logReadWarning :: cleanupEffects :=
  ⟨⟨by decide, by decide⟩,
   read_failure_clean_termination 15 initState [okInput 1 (some [0]) 100]
     [okInput 7 none 300] badReadInput (by decide) (by decide)⟩

/-- A true detection flag means a present, non-empty box list. -/
theorem detectedNow_true (results : Option (List ℕ)) (h : detectedNow results = true) :
    ∃ bs, results = some bs ∧ 0 < bs.length := by
  cases results with
  | none => simp [detectedNow] at h
  | some bs => exact ⟨bs, rfl, by simpa [detectedNow] using h⟩

/-- Claim C10: every Arrived log record carries a detection count of at
least 1 — the arrival branch is entered only when this tick's result holds
one or more boxes, and the logged count is that box list's length. -/
theorem arrived_count_positive (cooldown : ℤ) (s : LoopState) (inp : TickInput) (n : ℕ)
    (hmem : Effect.logArrived n ∈ (tick cooldown s inp).effects) :
    1 ≤ n ∧ ∃ bs, inp.results = some bs ∧ n = bs.length := by
  cases hret : inp.ret with
  | false =>
    rw [tick_read_fail cooldown s inp hret] at hmem
    simp at hmem
  | true =>
    rw [tick_effects_eq cooldown s inp hret] at hmem
    rcases List.mem_append.mp hmem with hmem' | hmem'
    · rcases List.mem_append.mp hmem' with hstep | hdisp
      · revert hstep
        unfold transitionStep
        split
        · intro hstep
          rename_i hcond
          have hdet : detectedNow inp.results = true := by
            cases hdet : detectedNow inp.results
            · rw [hdet] at hcond; simp at hcond
            · rfl
          obtain ⟨bs, hbs, hpos⟩ := detectedNow_true inp.results hdet
          rcases photoEffects_fst inp.frame s.annotated_frame inp.plot_ok inp.write_ok
            with h1 | h1 <;>
            rcases notifyEffects_fst cooldown s.last_notification_time inp.now inp.notify_ok
              with h2 | h2 | h2 <;>
            · simp [arrivedEffects, h1, h2] at hstep
              refine ⟨?_, bs, hbs, ?_⟩ <;> simp [hstep, boxCount, hbs] <;> omega
        · split
          · intro hstep; simp at hstep
          · intro hstep; simp at hstep
      · have := displayEffects_render (detectedNow inp.results)
          (transitionStep cooldown s inp).2.annotated_frame inp.frame inp.imshow_ok
          (Effect.logArrived n) hdisp
        simp [isRenderEffect] at this
    · cases hq : inp.quit_key <;> rw [hq] at hmem' <;> simp at hmem'

/-- Witness for C10: the photo-failure arrival tick logs count 2 for its
two boxes. -/
theorem arrived_count_positive_witness :
    Effect.logArrived 2 ∈ (tick 15 initState photoFailInput).effects
    ∧ (1 ≤ 2 ∧ ∃ bs, photoFailInput.results = some bs ∧ 2 = bs.length) :=
  ⟨by decide, arrived_count_positive 15 initState photoFailInput 2 (by decide)⟩

end DetectPerson
